import Mathlib

/-!
Verification of the entity-resolution and caching core of the Ehiring API
service (`app.py` / `server.py`).

The embedding models:
* the TF-IDF + cosine-similarity fuzzy resolver (`find_opening_id_by_name`,
  `find_candidate_by_name_in_opening`),
* the stage-name filter of `get_candidates_for_opening`,
* the TTL cache around `get_base_openings`.

Modelling conventions:
* Upstream HTTP calls are modelled by passing their outcome (parsed payload
  or a request error) as an explicit argument.
* Python dict fields that may be absent are modelled as `String` with `""`
  standing for "absent" — this preserves both Python truthiness
  (`if c.get('name')`) and equality tests against non-empty queries.
* Floating point arithmetic is idealised as exact real arithmetic; the
  tokenizer models scikit-learn's default analyzer (lowercasing and the
  token pattern of runs of at least two word characters) on the ASCII
  fragment used by all concrete inputs in this development.
* `time.time()` timestamps are modelled as rationals so that cache-freshness
  comparisons stay decidable.
-/

/-- A word character in scikit-learn's default token pattern: alphanumeric
or underscore. -/
def isWordChar (c : Char) : Bool := c.isAlphanum || c == '_'

/-- Splits a character list into maximal runs of word characters.
`cur` accumulates the current run in reverse. -/
def tokenizeAux : List Char → List Char → List (List Char)
  | [], cur => if cur.isEmpty then [] else [cur.reverse]
  | c :: rest, cur =>
    if isWordChar c then tokenizeAux rest (c :: cur)
    else if cur.isEmpty then tokenizeAux rest []
    else cur.reverse :: tokenizeAux rest []

/-- scikit-learn `TfidfVectorizer` default analyzer: lowercase, then keep
maximal word-character runs of length at least 2. -/
def tokenize (s : String) : List String :=
  ((tokenizeAux (s.data.map Char.toLower) []).filter (fun t => 2 ≤ t.length)).map
    (fun t => String.mk t)

/-- The fitted vocabulary: every token occurring in some corpus label
(first-occurrence order; order does not affect similarity values). An empty
vocabulary makes `TfidfVectorizer.fit_transform` raise. -/
def tfidfVocab (labels : List String) : List String :=
  ((labels.map tokenize).flatten).dedup

/-- Term frequency: number of occurrences of token `t` in a document. -/
def countTok (t : String) (toks : List String) : ℕ := toks.count t

/-- Document frequency: number of corpus documents containing token `t`. -/
def docFreq (docs : List (List String)) (t : String) : ℕ :=
  (docs.filter (fun d => d.contains t)).length

/-- Smoothed inverse document frequency, scikit-learn default:
`ln((1+n)/(1+df)) + 1`. -/
noncomputable def idf (n df : ℕ) : ℝ :=
  Real.log ((1 + (n : ℝ)) / (1 + (df : ℝ))) + 1

/-- The (unnormalised) tf-idf vector of a tokenised document over a fitted
vocabulary; cosine similarity is invariant under the l2 normalisation that
scikit-learn applies, so normalisation is folded into `cosSim`. -/
noncomputable def tfidfVec (vocab : List String) (docs : List (List String))
    (n : ℕ) (toks : List String) : List ℝ :=
  vocab.map (fun t => (countTok t toks : ℝ) * idf n (docFreq docs t))

/-- Dot product of two real vectors. -/
noncomputable def dotList (u v : List ℝ) : ℝ := (List.zipWith (· * ·) u v).sum

open Classical in
/-- Cosine similarity as computed by `sklearn.metrics.pairwise.cosine_similarity`:
zero vectors are left unnormalised, giving similarity 0. -/
noncomputable def cosSim (u v : List ℝ) : ℝ :=
  if dotList u u = 0 ∨ dotList v v = 0 then 0
  else dotList u v / (Real.sqrt (dotList u u) * Real.sqrt (dotList v v))

/-- The row of cosine similarities between the query vector and every corpus
label vector, in the fitted tf-idf space. -/
noncomputable def simList (labels : List String) (query : String) : List ℝ :=
  (labels.map tokenize).map (fun d =>
    cosSim
      (tfidfVec (tfidfVocab labels) (labels.map tokenize) labels.length (tokenize query))
      (tfidfVec (tfidfVocab labels) (labels.map tokenize) labels.length d))

/-- `fit_transform` on the labels followed by `transform` on the query and
`cosine_similarity(...)`: `none` models the `ValueError` scikit-learn raises
when the corpus yields an empty vocabulary (the only failure mode for a list
of strings), which the source catches. -/
noncomputable def tfidfSimilarities (labels : List String) (query : String) :
    Option (List ℝ) :=
  if tfidfVocab labels = [] then none else some (simList labels query)

open Classical in
/-- `numpy.argmax`: index of the first occurrence of the maximum. -/
noncomputable def argmaxIdx : List ℝ → ℕ
  | [] => 0
  | x :: xs => if ∀ y ∈ xs, y ≤ x then 0 else argmaxIdx xs + 1

/-- An active opening as kept by `get_base_openings` (`{"id": ..., "name": ...}`). -/
structure Opening where
  id : String
  name : String
deriving DecidableEq, Repr

/-- A raw opening as returned by the upstream `opening/list` endpoint;
only the fields the core reads. Absent fields are `""`. -/
structure RawOpening where
  id : String
  name : String
  status : String
deriving DecidableEq, Repr

/-- A candidate record as returned by the upstream `candidate/list` endpoint;
only the fields the resolver and stage filter read. Absent fields are `""`. -/
structure Candidate where
  id : String
  name : String
  stage_name : String
deriving DecidableEq, Repr

/-- `CACHE_TTL = 300` seconds. -/
def CACHE_TTL : ℚ := 300

/-- One entry of the module-level `_cache` dict:
`{'data': None, 'timestamp': 0}` initially. -/
structure CacheEntry where
  data : Option (List Opening)
  timestamp : ℚ
deriving DecidableEq, Repr

/-- Errors `get_base_openings` raises: HTTP 500 when the API key is missing,
HTTP 503 when the upstream request fails. -/
inductive ApiError where
  | configError
  | upstreamError
deriving DecidableEq, Repr

/-- Outcome of the upstream `requests.post` + `raise_for_status` + `json()`
sequence: `ok` carries the parsed `openings` field (missing key modelled as
`[]`), `err` models a `RequestException`. -/
inductive FetchOutcome where
  | ok (openings : List RawOpening)
  | err
deriving DecidableEq, Repr

/-- What the resolver sees or raises. -/
inductive ApiResult where
  | ok (openings : List Opening)
  | error (e : ApiError)
deriving DecidableEq, Repr

/-- Result of one `get_base_openings` call: the returned (or raised) value,
the cache entry after the call, and whether the upstream request was issued. -/
structure CallResult where
  result : ApiResult
  cache : CacheEntry
  didFetch : Bool
deriving DecidableEq, Repr

/-- The status-`'10'` filter and projection applied to fetched openings. -/
def filterActive (raws : List RawOpening) : List Opening :=
  (raws.filter (fun o => o.status == "10")).map (fun o => { id := o.id, name := o.name })

/-- `get_base_openings(api_key, use_cache=True)` from `app.py` lines 74-109:
serve the cached payload while fresh, otherwise issue the upstream request,
raising 503 on failure and storing the filtered result (only when
`use_cache`) on success. -/
def get_base_openings (api_key : String) (use_cache : Bool) (now : ℚ)
    (upstream : FetchOutcome) (cache : CacheEntry) : CallResult :=
  if api_key = "" then ⟨.error .configError, cache, false⟩
  else if use_cache = true ∧ cache.data ≠ none ∧ now - cache.timestamp < CACHE_TTL then
    ⟨.ok (cache.data.getD []), cache, false⟩
  else
    match upstream with
    | .err => ⟨.error .upstreamError, cache, true⟩
    | .ok raws =>
      if use_cache then ⟨.ok (filterActive raws), ⟨some (filterActive raws), now⟩, true⟩
      else ⟨.ok (filterActive raws), cache, true⟩

/-- The exact-match predicate of `find_opening_id_by_name`:
`op['id'] == query_name or op['name'] == query_name`. -/
def isExactFor (query_name : String) (op : Opening) : Bool :=
  op.id == query_name || op.name == query_name

/-- `find_opening_id_by_name(query_name, api_key, similarity_threshold=0.5)`
from `app.py` lines 479-518 (`server.py` 437-469): the `openings` argument
models the list returned by the `get_base_openings` call. -/
noncomputable def find_opening_id_by_name (query_name : String)
    (openings : List Opening) (similarity_threshold : ℝ) :
    Option String × Option String × ℝ :=
  if openings = [] then (none, none, 0)
  else
    match openings.find? (isExactFor query_name) with
    | some op => (some op.id, some op.name, 1)
    | none =>
      if openings.map (fun op => op.name) = [] then (none, none, 0)
      else
        match tfidfSimilarities (openings.map (fun op => op.name)) query_name with
        | none => (none, none, 0)
        | some sims =>
          if similarity_threshold ≤ sims.getD (argmaxIdx sims) 0 then
            match openings.get? (argmaxIdx sims) with
            | some op => (some op.id, some op.name, sims.getD (argmaxIdx sims) 0)
            | none => (none, none, 0)
          else (none, none, sims.getD (argmaxIdx sims) 0)

/-- The tail of `find_candidate_by_name_in_opening` operating on the
stage-filtered candidate list (`server.py` lines 505-531): collect non-empty
names, exact-match on name, otherwise TF-IDF similarity over the names. -/
noncomputable def findCandidateCommon (candidate_name : String)
    (similarity_threshold : ℝ) (filtered : List Candidate) : Option String × ℝ :=
  if (filtered.filter (fun c => !(c.name == ""))).map (fun c => c.name) = [] then (none, 0)
  else
    match filtered.find? (fun c => c.name == candidate_name) with
    | some c => (some c.id, 1)
    | none =>
      match tfidfSimilarities
          ((filtered.filter (fun c => !(c.name == ""))).map (fun c => c.name))
          candidate_name with
      | none => (none, 0)
      | some sims =>
        if similarity_threshold ≤ sims.getD (argmaxIdx sims) 0 then
          match (filtered.filter (fun c => !(c.name == ""))).get? (argmaxIdx sims) with
          | some c => (some c.id, sims.getD (argmaxIdx sims) 0)
          | none => (none, sims.getD (argmaxIdx sims) 0)
        else (none, sims.getD (argmaxIdx sims) 0)

/-- Outcome of the upstream `candidate/list` request in
`find_candidate_by_name_in_opening`: `ok` carries the parsed `candidates`
field, `err` models a `RequestException` (caught, yielding `(None, 0.0)`). -/
inductive CandidateFetch where
  | ok (candidates : List Candidate)
  | err
deriving DecidableEq, Repr

/-- `find_candidate_by_name_in_opening(candidate_name, opening_id, api_key,
similarity_threshold=0.5, filter_stages=None)` from `server.py` lines
471-531. `filter_stages` is truthy in Python iff it is a non-empty
collection, modelled as `some` of a non-empty list. -/
noncomputable def find_candidate_by_name_in_opening (candidate_name : String)
    (opening_id : String) (similarity_threshold : ℝ)
    (filter_stages : Option (List String)) (fetched : CandidateFetch) :
    Option String × ℝ :=
  if candidate_name = "" ∨ opening_id = "" then (none, 0)
  else
    match fetched with
    | .err => (none, 0)
    | .ok cands =>
      if cands = [] then (none, 0)
      else
        match filter_stages with
        | some stages =>
          if stages = [] then findCandidateCommon candidate_name similarity_threshold cands
          else
            if cands.filter (fun c => !(c.stage_name == "") && stages.contains c.stage_name) = []
            then (none, 0)
            else findCandidateCommon candidate_name similarity_threshold
              (cands.filter (fun c => !(c.stage_name == "") && stages.contains c.stage_name))
        | none => findCandidateCommon candidate_name similarity_threshold cands

/-- `list(set(candidate.get('stage_name','') for ... if candidate.get('stage_name')))`
from `get_candidates_for_opening`; Python's set iteration order is modelled
as first-occurrence order. -/
def allStageNames (cands : List Candidate) : List String :=
  ((cands.filter (fun c => !(c.stage_name == ""))).map (fun c => c.stage_name)).dedup

/-- The `matching_stage_names` computation of `get_candidates_for_opening`
(`app.py` lines 544-580): `none` means "no stage filtering". -/
noncomputable def matching_stage_names (stage_name : Option String)
    (cands : List Candidate) : Option (List String) :=
  match stage_name with
  | none => none
  | some q =>
    if allStageNames cands = [] then none
    else if q ∈ allStageNames cands then some [q]
    else
      match tfidfSimilarities (allStageNames cands) q with
      | none => none
      | some sims =>
        if (3 : ℝ)/10 ≤ sims.getD (argmaxIdx sims) 0 then
          some [(allStageNames cands).getD (argmaxIdx sims) ""]
        else none

/-- `get_candidates_for_opening(opening_id, api_key, start_date, end_date,
stage_name)` from `app.py` lines 520-642 (`server.py` 533-636), projected to
which fetched candidates are kept: the per-candidate enrichment (cv_text,
reviews, test results, offer letter) neither adds, drops nor reorders
candidates, so the returned list is identified with the filtered fetch. -/
noncomputable def get_candidates_for_opening (stage_name : Option String)
    (fetched : List Candidate) : List Candidate :=
  if fetched = [] then []
  else
    match matching_stage_names stage_name fetched with
    | none => fetched
    | some names => fetched.filter (fun c => names.contains c.stage_name)

/-- Cache-miss precondition in the form used by `get_base_openings`. -/
theorem cache_miss_cond {uc : Bool} {c : CacheEntry} {t : ℚ}
    (h : c.data = none ∨ ¬(t - c.timestamp < CACHE_TTL)) :
    ¬(uc = true ∧ c.data ≠ none ∧ t - c.timestamp < CACHE_TTL) := by
  rcases h with h | h
  · exact fun hc => hc.2.1 h
  · exact fun hc => h hc.2.2

/-- A cache-missing successful cached fetch stores the filtered payload. -/
theorem get_base_openings_miss_ok (api_key : String) (raws : List RawOpening)
    (t : ℚ) (c : CacheEntry) (hkey : api_key ≠ "")
    (hmiss : c.data = none ∨ ¬(t - c.timestamp < CACHE_TTL)) :
    get_base_openings api_key true t (.ok raws) c
      = ⟨.ok (filterActive raws), ⟨some (filterActive raws), t⟩, true⟩ := by
  unfold get_base_openings
  rw [if_neg hkey, if_neg (cache_miss_cond hmiss)]
  rfl

/-- C8: a failed upstream fetch never overwrites the cache entry: whatever
the arguments, a call whose upstream request errors leaves both the payload
and the timestamp of the cache exactly as they were. -/
theorem C8_failed_fetch_preserves_cache (api_key : String) (use_cache : Bool)
    (now : ℚ) (cache : CacheEntry) :
    (get_base_openings api_key use_cache now .err cache).cache = cache := by
  unfold get_base_openings
  split_ifs <;> rfl

/-- C3 (counterexample): with a stale cached payload present (fetched at
t = 0, queried at t = 301 > TTL) and a failing upstream fetch,
`get_base_openings` raises the 503-equivalent upstream error instead of
returning the previously cached payload. -/
theorem C3_counterexample :
    get_base_openings "key" true 301 .err ⟨some [⟨"o1", "Backend Engineer"⟩], 0⟩
      = ⟨.error .upstreamError, ⟨some [⟨"o1", "Backend Engineer"⟩], 0⟩, true⟩ ∧
    ApiResult.error .upstreamError ≠ .ok [⟨"o1", "Backend Engineer"⟩] := by
  constructor
  · norm_num [get_base_openings, CACHE_TTL]
    decide
  · decide

/-- C3 (amended): whenever the cached entry is absent, expired, or caching
is disabled, a failing upstream fetch makes `get_base_openings` raise the
503-equivalent upstream error and leaves the cache unchanged; a stale
payload is never served once its TTL has elapsed. -/
theorem C3_amended_upstream_failure_raises (api_key : String) (use_cache : Bool)
    (now : ℚ) (cache : CacheEntry) (hkey : api_key ≠ "")
    (hmiss : ¬(use_cache = true ∧ cache.data ≠ none ∧ now - cache.timestamp < CACHE_TTL)) :
    get_base_openings api_key use_cache now .err cache
      = ⟨.error .upstreamError, cache, true⟩ := by
  unfold get_base_openings
  rw [if_neg hkey, if_neg hmiss]

/-- Witness for C3 (amended) at a concrete stale cache state. -/
theorem C3_amended_witness :
    get_base_openings "key" true 400 .err ⟨some [⟨"o1", "A"⟩], 0⟩
      = ⟨.error .upstreamError, ⟨some [⟨"o1", "A"⟩], 0⟩, true⟩ :=
  C3_amended_upstream_failure_raises "key" true 400 ⟨some [⟨"o1", "A"⟩], 0⟩
    (by decide) (by norm_num [CACHE_TTL])

/-- C4: after a cache-missing cached fetch at time `t0` succeeds, any second
cached call at a time `t1` with `t1 - t0 < CACHE_TTL` returns the stored
payload without issuing the upstream request (so the upstream is invoked
exactly once across the two calls), while once the TTL has elapsed the next
call issues a fresh upstream request. -/
theorem C4_ttl_idempotence (api_key : String) (raws : List RawOpening)
    (t0 t1 : ℚ) (c0 : CacheEntry) (hkey : api_key ≠ "")
    (hmiss : c0.data = none ∨ ¬(t0 - c0.timestamp < CACHE_TTL)) :
    (get_base_openings api_key true t0 (.ok raws) c0).didFetch = true ∧
    (∀ u, t1 - t0 < CACHE_TTL →
      get_base_openings api_key true t1 u (get_base_openings api_key true t0 (.ok raws) c0).cache
        = ⟨.ok (filterActive raws), ⟨some (filterActive raws), t0⟩, false⟩) ∧
    (¬(t1 - t0 < CACHE_TTL) → ∀ u,
      (get_base_openings api_key true t1 u
        (get_base_openings api_key true t0 (.ok raws) c0).cache).didFetch = true) := by
  have h1 := get_base_openings_miss_ok api_key raws t0 c0 hkey hmiss
  refine ⟨by rw [h1], ?_, ?_⟩
  · intro u hfresh
    rw [h1]
    unfold get_base_openings
    rw [if_neg hkey, if_pos ⟨rfl, by simp, hfresh⟩]
    rfl
  · intro hstale u
    rw [h1]
    unfold get_base_openings
    rw [if_neg hkey, if_neg (cache_miss_cond (Or.inr hstale))]
    cases u <;> rfl

/-- Witness for C4: fetch at t = 0, cached hit at t = 299, fresh fetch at
t = 301. -/
theorem C4_witness :
    (get_base_openings "key" true 0 (.ok [⟨"o1", "A", "10"⟩]) ⟨none, 0⟩).didFetch = true ∧
    get_base_openings "key" true 299 .err
        (get_base_openings "key" true 0 (.ok [⟨"o1", "A", "10"⟩]) ⟨none, 0⟩).cache
      = ⟨.ok [⟨"o1", "A"⟩], ⟨some [⟨"o1", "A"⟩], 0⟩, false⟩ ∧
    (get_base_openings "key" true 301 .err
        (get_base_openings "key" true 0 (.ok [⟨"o1", "A", "10"⟩]) ⟨none, 0⟩).cache).didFetch
      = true := by
  have h := C4_ttl_idempotence "key" [⟨"o1", "A", "10"⟩] 0 299 ⟨none, 0⟩ (by decide) (Or.inl rfl)
  have h301 := C4_ttl_idempotence "key" [⟨"o1", "A", "10"⟩] 0 301 ⟨none, 0⟩ (by decide) (Or.inl rfl)
  refine ⟨h.1, ?_, h301.2.2 (by norm_num [CACHE_TTL]) .err⟩
  have := h.2.1 .err (by norm_num [CACHE_TTL])
  simpa [filterActive] using this

/-- C9 (counterexample): a bypass call (`use_cache=False`) with a successful
upstream fetch does not store the result — the cache entry is left at its
prior value instead of being set to the fetched payload with the current
timestamp — and a subsequent cached call does not observe the bypassed
fetch's result from the cache (it must fetch again). -/
theorem C9_counterexample :
    get_base_openings "key" false 10 (.ok [⟨"o1", "Backend", "10"⟩]) ⟨none, 0⟩
      = ⟨.ok [⟨"o1", "Backend"⟩], ⟨none, 0⟩, true⟩ ∧
    (⟨none, 0⟩ : CacheEntry) ≠ ⟨some [⟨"o1", "Backend"⟩], 10⟩ ∧
    (get_base_openings "key" true 11 .err ⟨none, 0⟩).didFetch = true := by
  refine ⟨by decide, by decide, by decide⟩

/-- C9 (amended): a call with `use_cache=False` always issues the upstream
request and, on success, returns the filtered fetched result, but it never
stores anything: the cache entry is unchanged, so a later cached call does
not observe the bypass call's result. -/
theorem C9_amended_bypass_does_not_store (api_key : String) (now : ℚ)
    (u : FetchOutcome) (cache : CacheEntry) (hkey : api_key ≠ "") :
    (get_base_openings api_key false now u cache).didFetch = true ∧
    (get_base_openings api_key false now u cache).cache = cache ∧
    ∀ raws, u = .ok raws →
      (get_base_openings api_key false now u cache).result = .ok (filterActive raws) := by
  have hm : ¬((false = true) ∧ cache.data ≠ none ∧ now - cache.timestamp < CACHE_TTL) := by
    simp
  unfold get_base_openings
  rw [if_neg hkey, if_neg hm]
  cases u with
  | err =>
    refine ⟨rfl, rfl, ?_⟩
    intro raws h
    exact absurd h (by simp)
  | ok raws =>
    refine ⟨rfl, rfl, ?_⟩
    intro raws2 h
    cases h
    rfl

/-- Witness for C9 (amended) at a concrete bypass call. -/
theorem C9_amended_witness :
    (get_base_openings "key" false 10 (.ok [⟨"o1", "A", "10"⟩]) ⟨none, 0⟩).didFetch = true ∧
    (get_base_openings "key" false 10 (.ok [⟨"o1", "A", "10"⟩]) ⟨none, 0⟩).cache = ⟨none, 0⟩ ∧
    (get_base_openings "key" false 10 (.ok [⟨"o1", "A", "10"⟩]) ⟨none, 0⟩).result
      = .ok [⟨"o1", "A"⟩] := by
  have h := C9_amended_bypass_does_not_store "key" 10 (.ok [⟨"o1", "A", "10"⟩]) ⟨none, 0⟩ (by decide)
  exact ⟨h.1, h.2.1, by rw [h.2.2 [⟨"o1", "A", "10"⟩] rfl]; decide⟩

/-- Resolving over an empty openings list yields `(None, None, 0.0)`. -/
theorem find_opening_nil (q : String) (t : ℝ) :
    find_opening_id_by_name q [] t = (none, none, 0) := by
  unfold find_opening_id_by_name
  rw [if_pos rfl]

/-- The exact-match short-circuit of `find_opening_id_by_name`: the first
entry whose id or name equals the query is returned with score `1.0`. -/
theorem find_opening_exact (q : String) (t : ℝ) (openings : List Opening)
    (op : Opening) (h : openings.find? (isExactFor q) = some op) :
    find_opening_id_by_name q openings t = (some op.id, some op.name, 1) := by
  have hne : openings ≠ [] := by
    intro he
    rw [he] at h
    simp at h
  unfold find_opening_id_by_name
  rw [if_neg hne, h]

/-- With no exact match and a successful vectorization,
`find_opening_id_by_name` compares the best similarity to the threshold. -/
theorem find_opening_simBranch (q : String) (t : ℝ) (openings : List Opening)
    (sims : List ℝ) (hne : openings ≠ [])
    (hex : openings.find? (isExactFor q) = none)
    (hsims : tfidfSimilarities (openings.map (fun op => op.name)) q = some sims) :
    find_opening_id_by_name q openings t =
      if t ≤ sims.getD (argmaxIdx sims) 0 then
        match openings.get? (argmaxIdx sims) with
        | some op => (some op.id, some op.name, sims.getD (argmaxIdx sims) 0)
        | none => (none, none, 0)
      else (none, none, sims.getD (argmaxIdx sims) 0) := by
  have hmap : openings.map (fun op => op.name) ≠ [] := by
    simpa using hne
  unfold find_opening_id_by_name
  rw [if_neg hne, hex, if_neg hmap, hsims]

/-- A failing vectorization degrades `find_opening_id_by_name` to
`(None, None, 0.0)`. -/
theorem find_opening_vecFail (q : String) (t : ℝ) (openings : List Opening)
    (hex : openings.find? (isExactFor q) = none)
    (hsims : tfidfSimilarities (openings.map (fun op => op.name)) q = none) :
    find_opening_id_by_name q openings t = (none, none, 0) := by
  by_cases hne : openings = []
  · rw [hne]
    exact find_opening_nil q t
  · have hmap : openings.map (fun op => op.name) ≠ [] := by
      simpa using hne
    unfold find_opening_id_by_name
    rw [if_neg hne, hex, if_neg hmap, hsims]

/-- C5: resolving against an empty corpus returns `(None, None, 0.0)` for
every query, and a vectorization failure on a non-exact query likewise
degrades the result to `(None, None, 0.0)`. -/
theorem C5_empty_corpus_and_vectorization_failure (q : String) (t : ℝ)
    (openings : List Opening) :
    find_opening_id_by_name q [] t = (none, none, 0) ∧
    (openings.find? (isExactFor q) = none →
      tfidfSimilarities (openings.map (fun op => op.name)) q = none →
      find_opening_id_by_name q openings t = (none, none, 0)) :=
  ⟨find_opening_nil q t, fun hex hsims => find_opening_vecFail q t openings hex hsims⟩

/-- Witness for C5: empty corpus, and a corpus whose single label `"a"`
yields an empty vocabulary (no token of length two) so that
`TfidfVectorizer.fit_transform` fails. -/
theorem C5_witness :
    find_opening_id_by_name "xy" [] (1/2) = (none, none, 0) ∧
    find_opening_id_by_name "xy" [⟨"o1", "a"⟩] (1/2) = (none, none, 0) := by
  have h := C5_empty_corpus_and_vectorization_failure "xy" (1/2) [⟨"o1", "a"⟩]
  refine ⟨h.1, h.2 (by decide) ?_⟩
  rw [tfidfSimilarities, if_pos]
  decide

/-- C7: thresholds only gate the already-computed best similarity, so a
query that resolves at the larger threshold `t2` resolves identically
(same entry, same score) at any smaller threshold `t1`. -/
theorem C7_threshold_monotonicity (q : String) (openings : List Opening)
    (t1 t2 : ℝ) (i : String) (hlt : t1 < t2)
    (h : (find_opening_id_by_name q openings t2).1 = some i) :
    find_opening_id_by_name q openings t1 = find_opening_id_by_name q openings t2 := by
  by_cases hne : openings = []
  · rw [hne, find_opening_nil q t2] at h
    simp at h
  cases hfind : openings.find? (isExactFor q) with
  | some op =>
    rw [find_opening_exact q t1 openings op hfind, find_opening_exact q t2 openings op hfind]
  | none =>
    cases hsims : tfidfSimilarities (openings.map (fun op => op.name)) q with
    | none =>
      rw [find_opening_vecFail q t2 openings hfind hsims] at h
      simp at h
    | some sims =>
      rw [find_opening_simBranch q t1 openings sims hne hfind hsims,
        find_opening_simBranch q t2 openings sims hne hfind hsims]
      by_cases h2 : t2 ≤ sims.getD (argmaxIdx sims) 0
      · rw [if_pos h2, if_pos (le_of_lt (lt_of_lt_of_le hlt h2))]
      · rw [find_opening_simBranch q t2 openings sims hne hfind hsims, if_neg h2] at h
        simp at h

/-- Witness for C7: an exact match resolves at threshold `0.5` and at the
smaller threshold `0.3` to the same entry. -/
theorem C7_witness :
    find_opening_id_by_name "o1" [⟨"o1", "Backend Engineer"⟩] (3/10)
      = find_opening_id_by_name "o1" [⟨"o1", "Backend Engineer"⟩] (1/2) := by
  refine C7_threshold_monotonicity "o1" [⟨"o1", "Backend Engineer"⟩] (3/10) (1/2) "o1"
    (by norm_num) ?_
  rw [find_opening_exact "o1" (1/2) _ ⟨"o1", "Backend Engineer"⟩ (by decide)]

/-- With no stage filter (`filter_stages=None`) and a non-empty fetched
candidate list, `find_candidate_by_name_in_opening` reduces to the common
name-matching tail on the full list. -/
theorem find_candidate_no_filter (q oid : String) (t : ℝ) (cands : List Candidate)
    (hq : q ≠ "") (hoid : oid ≠ "") (hcn : cands ≠ []) :
    find_candidate_by_name_in_opening q oid t none (.ok cands)
      = findCandidateCommon q t cands := by
  unfold find_candidate_by_name_in_opening
  rw [if_neg (by push_neg; exact ⟨hq, hoid⟩)]
  show (if cands = [] then (none, 0) else findCandidateCommon q t cands)
    = findCandidateCommon q t cands
  rw [if_neg hcn]

/-- The exact-match short-circuit of the candidate resolver: the first
candidate whose name equals the query is returned with score `1.0`. -/
theorem findCandidateCommon_exact (q : String) (t : ℝ) (filtered : List Candidate)
    (c : Candidate) (hq : q ≠ "")
    (hfind : filtered.find? (fun cd => cd.name == q) = some c) :
    findCandidateCommon q t filtered = (some c.id, 1) := by
  have hmem := List.mem_of_find?_eq_some hfind
  have hname : c.name = q := by
    have := List.find?_some hfind
    simpa using this
  have hnames : (filtered.filter (fun cd => !(cd.name == ""))).map (fun cd => cd.name) ≠ [] := by
    have hcmem : c ∈ filtered.filter (fun cd => !(cd.name == "")) := by
      rw [List.mem_filter]
      exact ⟨hmem, by simp [hname, hq]⟩
    intro he
    rw [List.map_eq_nil_iff] at he
    rw [he] at hcmem
    simp at hcmem
  unfold findCandidateCommon
  rw [if_neg hnames, hfind]

/-- With no exact name match and a successful vectorization, the candidate
resolver compares the best similarity to the threshold. -/
theorem findCandidateCommon_simBranch (q : String) (t : ℝ) (filtered : List Candidate)
    (sims : List ℝ)
    (hnames : (filtered.filter (fun cd => !(cd.name == ""))).map (fun cd => cd.name) ≠ [])
    (hex : filtered.find? (fun cd => cd.name == q) = none)
    (hsims : tfidfSimilarities
      ((filtered.filter (fun cd => !(cd.name == ""))).map (fun cd => cd.name)) q = some sims) :
    findCandidateCommon q t filtered =
      if t ≤ sims.getD (argmaxIdx sims) 0 then
        match (filtered.filter (fun cd => !(cd.name == ""))).get? (argmaxIdx sims) with
        | some c => (some c.id, sims.getD (argmaxIdx sims) 0)
        | none => (none, sims.getD (argmaxIdx sims) 0)
      else (none, sims.getD (argmaxIdx sims) 0) := by
  unfold findCandidateCommon
  rw [if_neg hnames, hex, hsims]

/-- C10: when a non-empty `filter_stages` set excludes every fetched
candidate, `find_candidate_by_name_in_opening` returns `(None, 0.0)` without
any exact-name or similarity matching. -/
theorem C10_stage_filter_never_dropped (q oid : String) (t : ℝ)
    (stages : List String) (cands : List Candidate)
    (hq : q ≠ "") (hoid : oid ≠ "") (hs : stages ≠ [])
    (hnone : ∀ c ∈ cands, c.stage_name ∉ stages) :
    find_candidate_by_name_in_opening q oid t (some stages) (.ok cands) = (none, 0) := by
  have hfilter :
      cands.filter (fun c => !(c.stage_name == "") && stages.contains c.stage_name) = [] := by
    rw [List.filter_eq_nil_iff]
    intro c hc
    simp only [Bool.and_eq_true, Bool.not_eq_true', beq_eq_false_iff_ne, ne_eq, not_and]
    intro _ hmem
    exact hnone c hc (by simpa using hmem)
  unfold find_candidate_by_name_in_opening
  rw [if_neg (by push_neg; exact ⟨hq, hoid⟩)]
  show (if cands = [] then (none, 0)
    else if stages = [] then findCandidateCommon q t cands
    else if cands.filter (fun c => !(c.stage_name == "") && stages.contains c.stage_name) = []
      then (none, 0)
    else findCandidateCommon q t
      (cands.filter (fun c => !(c.stage_name == "") && stages.contains c.stage_name)))
    = (none, 0)
  by_cases hcn : cands = []
  · rw [if_pos hcn]
  · rw [if_neg hcn, if_neg hs, if_pos hfilter]

/-- Witness for C10: the single candidate's name equals the query exactly,
but their stage `"New"` is outside the filter set `{"Hired"}`, so the
resolver still reports no match. -/
theorem C10_witness :
    find_candidate_by_name_in_opening "Alice Tran" "op1" (1/2) (some ["Hired"])
      (.ok [⟨"c1", "Alice Tran", "New"⟩]) = (none, 0) := by
  refine C10_stage_filter_never_dropped "Alice Tran" "op1" (1/2) ["Hired"]
    [⟨"c1", "Alice Tran", "New"⟩] (by decide) (by decide) (by decide) ?_
  intro c hc
  rw [List.mem_singleton] at hc
  rw [hc]
  decide

/-- C1 (amended): the exact-match short-circuit holds with score exactly
`1.0` and priority over TF-IDF matching, but its scope differs between the
two resolvers: `find_opening_id_by_name` matches the query against both id
and name, while `find_candidate_by_name_in_opening` (no stage filter)
matches only against the candidate name. -/
theorem C1_amended_exact_short_circuit (q1 q2 oid : String) (t1 t2 : ℝ)
    (openings : List Opening) (op : Opening) (cands : List Candidate) (c : Candidate)
    (hop : openings.find? (isExactFor q1) = some op)
    (hq2 : q2 ≠ "") (hoid : oid ≠ "")
    (hc : cands.find? (fun cd => cd.name == q2) = some c) :
    find_opening_id_by_name q1 openings t1 = (some op.id, some op.name, 1) ∧
    find_candidate_by_name_in_opening q2 oid t2 none (.ok cands) = (some c.id, 1) := by
  refine ⟨find_opening_exact q1 t1 openings op hop, ?_⟩
  have hcn : cands ≠ [] := by
    intro he
    rw [he] at hc
    simp at hc
  rw [find_candidate_no_filter q2 oid t2 cands hq2 hoid hcn]
  exact findCandidateCommon_exact q2 t2 cands c hq2 hc

/-- Witness for C1 (amended): an id-exact opening query and a name-exact
candidate query, each scoring `1.0`. -/
theorem C1_amended_witness :
    find_opening_id_by_name "o1" [⟨"o1", "Backend Engineer"⟩] (1/2)
      = (some "o1", some "Backend Engineer", 1) ∧
    find_candidate_by_name_in_opening "An Binh" "op7" (1/2) none
      (.ok [⟨"c9", "An Binh", "New"⟩]) = (some "c9", 1) :=
  C1_amended_exact_short_circuit "o1" "An Binh" "op7" (1/2) (1/2)
    [⟨"o1", "Backend Engineer"⟩] ⟨"o1", "Backend Engineer"⟩
    [⟨"c9", "An Binh", "New"⟩] ⟨"c9", "An Binh", "New"⟩
    (by decide) (by decide) (by decide) (by decide)

/-- A query vector that is zero gives cosine similarity 0. -/
theorem cosSim_zero_left (u v : List ℝ) (h : dotList u u = 0) : cosSim u v = 0 := by
  rw [cosSim, if_pos (Or.inl h)]

/-- `numpy.argmax` of a one-element array is index 0. -/
theorem argmaxIdx_singleton (x : ℝ) : argmaxIdx [x] = 0 := by
  simp [argmaxIdx]

/-- With a single fitted document every document frequency is 1, so the
smoothed idf is `ln(2/2) + 1 = 1`. -/
theorem idf_one_one : idf 1 1 = 1 := by
  norm_num [idf, Real.log_one]

/-- Cosine similarity of the identical vector `[1, 1]` with itself is 1. -/
theorem cosSim_ones : cosSim [(1:ℝ), 1] [1, 1] = 1 := by
  have hd : dotList [(1:ℝ), 1] [1, 1] = 2 := by norm_num [dotList]
  rw [cosSim, hd, if_neg (by norm_num), Real.mul_self_sqrt (by norm_num : (0:ℝ) ≤ 2)]
  norm_num

/-- The case-different query "backend engineer" has exactly the lowercased
tokens of the corpus label "Backend Engineer", so its cosine similarity is
exactly 1. -/
theorem tfidfSimilarities_BE :
    tfidfSimilarities ["Backend Engineer"] "backend engineer" = some [1] := by
  have hvocab : tfidfVocab ["Backend Engineer"] = ["backend", "engineer"] := by decide
  have htokd : tokenize "Backend Engineer" = ["backend", "engineer"] := by decide
  have htokq : tokenize "backend engineer" = ["backend", "engineer"] := by decide
  have hc1 : countTok "backend" ["backend", "engineer"] = 1 := by decide
  have hc2 : countTok "engineer" ["backend", "engineer"] = 1 := by decide
  have hd1 : docFreq [["backend", "engineer"]] "backend" = 1 := by decide
  have hd2 : docFreq [["backend", "engineer"]] "engineer" = 1 := by decide
  have hvec : tfidfVec ["backend", "engineer"] [["backend", "engineer"]] 1 ["backend", "engineer"]
      = [1, 1] := by
    simp [tfidfVec, hc1, hc2, hd1, hd2, idf_one_one]
  rw [tfidfSimilarities, if_neg (by rw [hvocab]; simp)]
  congr 1
  simp only [simList, List.map_cons, List.map_nil, htokd, htokq, hvocab, List.length_singleton]
  rw [hvec, cosSim_ones]

/-- A purely numeric query shares no token with the corpus name
"Nguyen Van A", so its query vector is zero and the similarity is 0. -/
theorem tfidfSimilarities_NVA :
    tfidfSimilarities ["Nguyen Van A"] "12345" = some [0] := by
  have hvocab : tfidfVocab ["Nguyen Van A"] = ["nguyen", "van"] := by decide
  have htokd : tokenize "Nguyen Van A" = ["nguyen", "van"] := by decide
  have htokq : tokenize "12345" = ["12345"] := by decide
  have hc1 : countTok "nguyen" ["12345"] = 0 := by decide
  have hc2 : countTok "van" ["12345"] = 0 := by decide
  have hqv : tfidfVec ["nguyen", "van"] [["nguyen", "van"]] 1 ["12345"] = [0, 0] := by
    simp [tfidfVec, hc1, hc2]
  have hdot : dotList [(0:ℝ), 0] [0, 0] = 0 := by norm_num [dotList]
  rw [tfidfSimilarities, if_neg (by rw [hvocab]; simp)]
  congr 1
  simp only [simList, List.map_cons, List.map_nil, htokd, htokq, hvocab, List.length_singleton]
  rw [hqv, cosSim_zero_left _ _ hdot]

/-- The end-to-end scenario: the case-different query resolves to `o1` with
score exactly 1. -/
theorem find_opening_BE :
    find_opening_id_by_name "backend engineer" [⟨"o1", "Backend Engineer"⟩] (1/2)
      = (some "o1", some "Backend Engineer", 1) := by
  rw [find_opening_simBranch "backend engineer" (1/2) [⟨"o1", "Backend Engineer"⟩] [1]
    (by decide) (by decide) tfidfSimilarities_BE]
  rw [argmaxIdx_singleton]
  have hg : ([(1:ℝ)]).getD 0 0 = 1 := rfl
  rw [hg, if_pos (by norm_num : (1:ℝ)/2 ≤ 1)]
  rfl

/-- C1 (counterexample): in `find_candidate_by_name_in_opening` a query
equal to a candidate's id (`"12345"`) is NOT exact-matched — only names
are compared — so the resolver returns `(None, 0.0)` instead of that
candidate with score `1.0`. -/
theorem C1_counterexample :
    find_candidate_by_name_in_opening "12345" "op1" (1/2) none
        (.ok [⟨"12345", "Nguyen Van A", "New"⟩]) = (none, 0) ∧
    ((none : Option String), (0:ℝ)) ≠ (some "12345", 1) := by
  refine ⟨?_, by simp⟩
  rw [find_candidate_no_filter _ _ _ _ (by decide) (by decide) (by decide)]
  rw [findCandidateCommon_simBranch "12345" (1/2) [⟨"12345", "Nguyen Van A", "New"⟩] [0]
    (by decide) (by decide) tfidfSimilarities_NVA]
  rw [argmaxIdx_singleton]
  have hg : ([(0:ℝ)]).getD 0 0 = 0 := rfl
  rw [hg, if_neg (by norm_num : ¬((1:ℝ)/2 ≤ 0))]

/-- C2 (counterexample): with openings `[{id: "o1", name: "Backend
Engineer"}]` the case-different, non-exact query "backend engineer" is
resolved with score exactly `1.0`, not a score strictly below `1.0`: in
exact arithmetic the cosine similarity of identical lowercased token
multisets is 1, so score `1.0` does not characterise exact case-sensitive
hits. -/
theorem C2_counterexample :
    (find_opening_id_by_name "backend engineer" [⟨"o1", "Backend Engineer"⟩] (1/2)).2.2 = 1 ∧
    ¬((find_opening_id_by_name "backend engineer" [⟨"o1", "Backend Engineer"⟩] (1/2)).2.2 < 1) := by
  rw [find_opening_BE]
  norm_num

/-- C2 (amended): every exact case-sensitive hit on id or name scores
exactly `1.0`, but a non-exact match may also score exactly `1.0` when its
lowercased token multiset coincides with the matched label's: the
case-different query "backend engineer" resolves to `o1` with score exactly
`1.0` (hence ≥ 0.5, but not < 1.0). -/
theorem C2_amended_score_semantics (q : String) (t : ℝ) (openings : List Opening)
    (op : Opening) (hop : openings.find? (isExactFor q) = some op) :
    (find_opening_id_by_name q openings t).2.2 = 1 ∧
    find_opening_id_by_name "backend engineer" [⟨"o1", "Backend Engineer"⟩] (1/2)
      = (some "o1", some "Backend Engineer", 1) ∧
    (1:ℝ) ≥ 1/2 :=
  ⟨by rw [find_opening_exact q t openings op hop], find_opening_BE, by norm_num⟩

/-- Witness for C2 (amended) at a concrete exact hit. -/
theorem C2_amended_witness :
    (find_opening_id_by_name "Backend Engineer" [⟨"o1", "Backend Engineer"⟩] (1/2)).2.2 = 1 :=
  (C2_amended_score_semantics "Backend Engineer" (1/2) [⟨"o1", "Backend Engineer"⟩]
    ⟨"o1", "Backend Engineer"⟩ (by decide)).1

/-- Vectorizing over an empty label list fails (empty vocabulary). -/
theorem tfidfSimilarities_nil (q : String) : tfidfSimilarities [] q = none := by
  rw [tfidfSimilarities, if_pos]
  rfl

/-- Membership test against a one-element list is equality. -/
theorem contains_singleton (a b : String) : ([b].contains a) = (a == b) := by
  cases h : a == b
  · simp [List.contains_cons]
    intro he
    rw [he] at h
    simp at h
  · simp [List.contains_cons, eq_of_beq h]

/-- An exact stage-name hit selects exactly that stage. -/
theorem matching_exact (q : String) (cs : List Candidate) (hq : q ∈ allStageNames cs) :
    matching_stage_names (some q) cs = some [q] := by
  have hne : allStageNames cs ≠ [] := by
    intro he
    rw [he] at hq
    simp at hq
  unfold matching_stage_names
  show (if allStageNames cs = [] then none
    else if q ∈ allStageNames cs then some [q]
    else match tfidfSimilarities (allStageNames cs) q with
      | none => none
      | some sims =>
        if (3 : ℝ)/10 ≤ sims.getD (argmaxIdx sims) 0 then
          some [(allStageNames cs).getD (argmaxIdx sims) ""]
        else none) = some [q]
  rw [if_neg hne, if_pos hq]

/-- With no exact stage hit, the best-similarity stage is kept iff its
similarity reaches the looser `0.3` threshold. -/
theorem matching_simBranch (q : String) (cs : List Candidate) (sims : List ℝ)
    (hq : q ∉ allStageNames cs)
    (hsims : tfidfSimilarities (allStageNames cs) q = some sims) :
    matching_stage_names (some q) cs =
      if (3 : ℝ)/10 ≤ sims.getD (argmaxIdx sims) 0 then
        some [(allStageNames cs).getD (argmaxIdx sims) ""]
      else none := by
  have hne : allStageNames cs ≠ [] := by
    intro he
    rw [he, tfidfSimilarities_nil] at hsims
    exact Option.noConfusion hsims
  unfold matching_stage_names
  show (if allStageNames cs = [] then none
    else if q ∈ allStageNames cs then some [q]
    else match tfidfSimilarities (allStageNames cs) q with
      | none => none
      | some sims =>
        if (3 : ℝ)/10 ≤ sims.getD (argmaxIdx sims) 0 then
          some [(allStageNames cs).getD (argmaxIdx sims) ""]
        else none) = _
  rw [if_neg hne, if_neg hq, hsims]

/-- A stage-vectorization failure disables stage filtering. -/
theorem matching_vecFail (q : String) (cs : List Candidate)
    (hq : q ∉ allStageNames cs)
    (hsims : tfidfSimilarities (allStageNames cs) q = none) :
    matching_stage_names (some q) cs = none := by
  by_cases hne : allStageNames cs = []
  · unfold matching_stage_names
    show (if allStageNames cs = [] then none
      else if q ∈ allStageNames cs then some [q]
      else match tfidfSimilarities (allStageNames cs) q with
        | none => none
        | some sims =>
          if (3 : ℝ)/10 ≤ sims.getD (argmaxIdx sims) 0 then
            some [(allStageNames cs).getD (argmaxIdx sims) ""]
          else none) = none
    rw [if_pos hne]
  · unfold matching_stage_names
    show (if allStageNames cs = [] then none
      else if q ∈ allStageNames cs then some [q]
      else match tfidfSimilarities (allStageNames cs) q with
        | none => none
        | some sims =>
          if (3 : ℝ)/10 ≤ sims.getD (argmaxIdx sims) 0 then
            some [(allStageNames cs).getD (argmaxIdx sims) ""]
          else none) = none
    rw [if_neg hne, if_neg hq, hsims]

/-- When no candidate carries a stage name, stage filtering is disabled. -/
theorem matching_noStages (q : String) (cs : List Candidate)
    (h : allStageNames cs = []) : matching_stage_names (some q) cs = none := by
  unfold matching_stage_names
  show (if allStageNames cs = [] then none
    else if q ∈ allStageNames cs then some [q]
    else match tfidfSimilarities (allStageNames cs) q with
      | none => none
      | some sims =>
        if (3 : ℝ)/10 ≤ sims.getD (argmaxIdx sims) 0 then
          some [(allStageNames cs).getD (argmaxIdx sims) ""]
        else none) = none
  rw [if_pos h]

/-- Disabled stage filtering returns the fetched candidates unchanged. -/
theorem gc_of_matching_none (stage_name : Option String) (cs : List Candidate)
    (h : matching_stage_names stage_name cs = none) :
    get_candidates_for_opening stage_name cs = cs := by
  unfold get_candidates_for_opening
  by_cases hcs : cs = []
  · rw [if_pos hcs, hcs]
  · rw [if_neg hcs, h]

/-- Active stage filtering keeps exactly the candidates whose stage name is
in the matched set. -/
theorem gc_of_matching_some (stage_name : Option String) (cs : List Candidate)
    (names : List String) (hcs : cs ≠ [])
    (h : matching_stage_names stage_name cs = some names) :
    get_candidates_for_opening stage_name cs
      = cs.filter (fun c => names.contains c.stage_name) := by
  unfold get_candidates_for_opening
  rw [if_neg hcs, h]

/-- C6: with a `stage_name` argument, an exact hit keeps only that stage;
otherwise the best-TF-IDF stage is kept when its similarity reaches `0.3`;
and when the best similarity is below `0.3`, vectorization fails, or no
candidate carries a stage name, no filtering is applied and all fetched
candidates are returned. -/
theorem C6_stage_filtering (q : String) (cs : List Candidate) :
    (q ∈ allStageNames cs →
      get_candidates_for_opening (some q) cs = cs.filter (fun c => c.stage_name == q)) ∧
    (∀ sims, q ∉ allStageNames cs →
      tfidfSimilarities (allStageNames cs) q = some sims →
      (((3 : ℝ)/10 ≤ sims.getD (argmaxIdx sims) 0 →
        get_candidates_for_opening (some q) cs
          = cs.filter (fun c => c.stage_name == (allStageNames cs).getD (argmaxIdx sims) "")) ∧
      (sims.getD (argmaxIdx sims) 0 < 3/10 →
        get_candidates_for_opening (some q) cs = cs))) ∧
    (q ∉ allStageNames cs → tfidfSimilarities (allStageNames cs) q = none →
      get_candidates_for_opening (some q) cs = cs) ∧
    (allStageNames cs = [] → get_candidates_for_opening (some q) cs = cs) := by
  refine ⟨?_, ?_, ?_, ?_⟩
  · intro hq
    have hcs : cs ≠ [] := by
      intro he
      rw [he] at hq
      simp [allStageNames] at hq
    rw [gc_of_matching_some (some q) cs [q] hcs (matching_exact q cs hq)]
    refine List.filter_congr ?_
    intro c _
    exact contains_singleton c.stage_name q
  · intro sims hq hsims
    have hcs : cs ≠ [] := by
      intro he
      rw [he, show allStageNames ([] : List Candidate) = [] from rfl,
        tfidfSimilarities_nil] at hsims
      exact Option.noConfusion hsims
    constructor
    · intro hge
      have hm := matching_simBranch q cs sims hq hsims
      rw [if_pos hge] at hm
      rw [gc_of_matching_some (some q) cs _ hcs hm]
      refine List.filter_congr ?_
      intro c _
      exact contains_singleton c.stage_name _
    · intro hlt
      have hm := matching_simBranch q cs sims hq hsims
      rw [if_neg (not_le.mpr hlt)] at hm
      exact gc_of_matching_none (some q) cs hm
  · intro hq hsims
    exact gc_of_matching_none (some q) cs (matching_vecFail q cs hq hsims)
  · intro hall
    exact gc_of_matching_none (some q) cs (matching_noStages q cs hall)

/-- Witness for C6: an exact stage hit on `"Hired"` keeps only the
candidate in that stage. -/
theorem C6_witness :
    get_candidates_for_opening (some "Hired")
        [⟨"c1", "An", "New"⟩, ⟨"c2", "Binh", "Hired"⟩]
      = [⟨"c2", "Binh", "Hired"⟩] := by
  have h := (C6_stage_filtering "Hired" [⟨"c1", "An", "New"⟩, ⟨"c2", "Binh", "Hired"⟩]).1
    (by decide)
  rw [h]
  decide
